import Mathlib

/-!
# Verification of the one-shot channel implementations (`channel-impls`)

Shallow embedding of the Rust sources:

* `src/os_channel.rs` — the four-state one-shot `Channel<T>`
  (`AtomicU8` state tag + `UnsafeCell<MaybeUninit<T>>` slot);
* `src/lib.rs` — the earlier two-flag `Channel<T>`
  (`AtomicBool in_use` + `AtomicBool ready`) and `BasicChannel<T>`;
* `src/basic_channel.rs` — `BasicChannel<T>`, a mutex/condvar FIFO queue.

Modelling conventions:

* The `MaybeUninit<T>` slot is modelled as `Option T`: `some v` means the
  slot holds a live value `v` owned by the channel, `none` means the slot is
  logically uninitialized (either never written, or its value's ownership has
  been transferred to a caller of `receive`).  `assume_init_read` transfers
  ownership out, so the model empties the slot at a successful receive even
  though the Rust code leaves the bytes in place.
* A `panic!` aborts the call before any further mutation; operations return a
  `Bool` panic flag (for `send`) or `Option T` with `none` meaning no value
  was produced because the call panicked (for `receive`), together with the
  channel state after the call.  On every panic path of the source the
  channel state is unchanged (the failed `compare_exchange` does not write).
* Sequential calls are modelled by the coarse functions `Channel.send`,
  `Channel.receive`, `Channel.is_ready`, `Channel.dropDestroyed`; the
  individual atomic state mutations inside those calls are modelled by the
  micro-step relation `Channel.Step` below.
-/

set_option autoImplicit false

/-- `const EMPTY: u8 = 0;` in `os_channel.rs`. -/
def EMPTY : Nat := 0

/-- `const WRITING: u8 = 1;` in `os_channel.rs`. -/
def WRITING : Nat := 1

/-- `const READY: u8 = 2;` in `os_channel.rs`. -/
def READY : Nat := 2

/-- `const READING: u8 = 3;` in `os_channel.rs`. -/
def READING : Nat := 3

/-- The four-state one-shot channel of `os_channel.rs`:
`message: UnsafeCell<MaybeUninit<T>>` is modelled as `Option T`
(`some v` = slot holds a live value the channel owns), and
`state: AtomicU8` as a `Nat` holding one of `EMPTY`, `WRITING`,
`READY`, `READING`. -/
structure Channel (T : Type) where
  message : Option T
  state : Nat
  deriving Repr, DecidableEq

/-- `Channel::new`: uninitialized slot, `state = EMPTY`. -/
def Channel.new {T : Type} : Channel T :=
  ⟨none, EMPTY⟩

/-- `Channel::send`.  The `compare_exchange(EMPTY, WRITING, ..)` succeeds
exactly when the state is `EMPTY`; on success the value is written into the
slot and the state is published as `READY` (the transient `WRITING` phase
inside the call is modelled step-by-step by `Channel.Step`).  On failure the
call panics without touching the slot or the state.  The second component is
the panic flag. -/
def Channel.send {T : Type} (c : Channel T) (m : T) : Channel T × Bool :=
  if c.state = EMPTY then (⟨some m, READY⟩, false) else (c, true)

/-- `Channel::is_ready`: a relaxed load of the state tag, compared with
`READY`.  The source performs no store, so the model is a pure function of
the channel. -/
def Channel.is_ready {T : Type} (c : Channel T) : Bool :=
  decide (c.state = READY)

/-- `Channel::receive`.  The `compare_exchange(READY, READING, Acquire, ..)`
succeeds exactly when the state is `READY`; on success the state becomes
`READING` and `assume_init_read` moves the value out of the slot (ownership
transfers to the caller, so the slot becomes logically empty).  On failure
the call panics and the channel is unchanged.  The second component is the
received value; `none` means the call panicked.  (If the state were `READY`
with an uninitialized slot the source would have undefined behavior; that
configuration is unreachable, see `Channel.reachable_slot_invariant`.) -/
def Channel.receive {T : Type} (c : Channel T) : Channel T × Option T :=
  if c.state = READY then (⟨none, READING⟩, c.message) else (c, none)

/-- `impl Drop for Channel`: the destructor runs `assume_init_drop` on the
slot exactly when the final state tag is `READY`.  The result lists the
payload values destroyed by the destructor (in the source, a destroyed value
is dropped exactly once). -/
def Channel.dropDestroyed {T : Type} (c : Channel T) : List T :=
  if c.state = READY then c.message.toList else []

/-- The individual atomic mutations of the channel performed by the source,
one constructor per mutating program point (a failed `compare_exchange`
mutates nothing and is followed by `panic!`, so it contributes no step):

* `sendClaim` — `compare_exchange(EMPTY, WRITING, Relaxed, Relaxed)`
  succeeding in `send`;
* `sendWrite` — `(*self.message.get()).write(message)` in `send`, reached
  only after this call won the claim, i.e. with the state at `WRITING`;
* `sendPublish` — `self.state.store(READY, Release)` in `send`, reached only
  after the slot was written;
* `recvClaim` — `compare_exchange(READY, READING, Acquire, Relaxed)`
  succeeding in `receive`; ownership of the slot's value passes to the
  receiving caller at this point (the subsequent `assume_init_read` is the
  caller privately reading the value it now owns), so the slot becomes
  logically empty. -/
inductive Channel.Step {T : Type} : Channel T → Channel T → Prop
  | sendClaim (c : Channel T) : c.state = EMPTY →
      Channel.Step c ⟨c.message, WRITING⟩
  | sendWrite (c : Channel T) (v : T) : c.state = WRITING →
      Channel.Step c ⟨some v, c.state⟩
  | sendPublish (c : Channel T) : c.state = WRITING → c.message.isSome = true →
      Channel.Step c ⟨c.message, READY⟩
  | recvClaim (c : Channel T) : c.state = READY →
      Channel.Step c ⟨none, READING⟩

/-- A channel configuration reachable from `Channel.new` by the atomic
mutations of the source. -/
def Channel.Reach {T : Type} (c : Channel T) : Prop :=
  Relation.ReflTransGen Channel.Step Channel.new c

/-- A transition of the state tag: some atomic step of the protocol moves the
tag from `a` to `b ≠ a`.  (The payload type is irrelevant to the tag, so it
is fixed to `Unit`.) -/
def TagStep (a b : Nat) : Prop :=
  a ≠ b ∧ ∃ c c' : Channel Unit, Channel.Step c c' ∧ c.state = a ∧ c'.state = b

/-- The only tag transitions the code can produce are
`EMPTY → WRITING`, `WRITING → READY` and `READY → READING`. -/
theorem tagStep_cases {a b : Nat} (h : TagStep a b) :
    (a = EMPTY ∧ b = WRITING) ∨ (a = WRITING ∧ b = READY) ∨
      (a = READY ∧ b = READING) := by
  obtain ⟨hne, c, c', hstep, ha, hb⟩ := h
  subst ha; subst hb
  cases hstep with
  | sendClaim h0 => exact Or.inl ⟨h0, rfl⟩
  | sendWrite v h0 => exact absurd rfl hne
  | sendPublish h0 h1 => exact Or.inr (Or.inl ⟨h0, rfl⟩)
  | recvClaim h0 => exact Or.inr (Or.inr ⟨h0, rfl⟩)

/-- C2: every sequence of tag transitions starting from the constructed state
`EMPTY` follows the path `EMPTY → WRITING → READY → READING`: the chain of
distinct tags visited is one of the four prefixes of that path, so each
transition occurs at most once and no other transition ever occurs. -/
theorem C2_state_path (l : List Nat) (h : List.Chain TagStep EMPTY l) :
    l = [] ∨ l = [WRITING] ∨ l = [WRITING, READY] ∨
      l = [WRITING, READY, READING] := by
  cases h with
  | nil => exact Or.inl rfl
  | cons h1 h1' =>
    rename_i b l'
    have hb : b = WRITING := by
      rcases tagStep_cases h1 with ⟨_, h⟩ | ⟨h, _⟩ | ⟨h, _⟩
      · exact h
      · exact absurd h (by simp [EMPTY, WRITING])
      · exact absurd h (by simp [EMPTY, READY])
    subst hb
    cases h1' with
    | nil => exact Or.inr (Or.inl rfl)
    | cons h2 h2' =>
      rename_i b2 l2
      have hb2 : b2 = READY := by
        rcases tagStep_cases h2 with ⟨h, _⟩ | ⟨_, h⟩ | ⟨h, _⟩
        · exact absurd h (by simp [EMPTY, WRITING])
        · exact h
        · exact absurd h (by simp [WRITING, READY])
      subst hb2
      cases h2' with
      | nil => exact Or.inr (Or.inr (Or.inl rfl))
      | cons h3 h3' =>
        rename_i b3 l3
        have hb3 : b3 = READING := by
          rcases tagStep_cases h3 with ⟨h, _⟩ | ⟨h, _⟩ | ⟨_, h⟩
          · exact absurd h (by simp [EMPTY, READY])
          · exact absurd h (by simp [WRITING, READY])
          · exact h
        subst hb3
        cases h3' with
        | nil => exact Or.inr (Or.inr (Or.inr rfl))
        | cons h4 h4' =>
          rcases tagStep_cases h4 with ⟨h, _⟩ | ⟨h, _⟩ | ⟨h, _⟩ <;>
            exact absurd h (by simp [EMPTY, WRITING, READY, READING])

/-- Witness for C2 at the empty chain. -/
theorem C2_state_path_witness :
    ([] : List Nat) = [] ∨ ([] : List Nat) = [WRITING] ∨
      ([] : List Nat) = [WRITING, READY] ∨
      ([] : List Nat) = [WRITING, READY, READING] :=
  C2_state_path [] List.Chain.nil

/-- The slot invariant, closed under `Channel.Step`: the slot holds a live
value exactly in the written-`WRITING` phase and in `READY`; in `EMPTY` and
`READING` it is empty. -/
def Channel.SlotInv {T : Type} (c : Channel T) : Prop :=
  (c.state = EMPTY ∨ c.state = WRITING ∨ c.state = READY ∨ c.state = READING) ∧
    (c.state = EMPTY → c.message = none) ∧
    (c.state = READY → c.message.isSome = true) ∧
    (c.state = READING → c.message = none)

theorem Channel.slotInv_new {T : Type} : Channel.SlotInv (Channel.new (T := T)) := by
  refine ⟨Or.inl rfl, fun _ => rfl, fun h => ?_, fun h => ?_⟩ <;>
    simp [Channel.new, EMPTY, READY, READING] at h

theorem Channel.slotInv_step {T : Type} {c c' : Channel T}
    (hinv : Channel.SlotInv c) (h : Channel.Step c c') : Channel.SlotInv c' := by
  obtain ⟨htag, hE, hRY, hRG⟩ := hinv
  cases h with
  | sendClaim h0 =>
    refine ⟨Or.inr (Or.inl rfl), fun h => ?_, fun h => ?_, fun h => ?_⟩ <;>
      simp [EMPTY, WRITING, READY, READING] at h
  | sendWrite v h0 =>
    refine ⟨Or.inr (Or.inl h0), fun h => ?_, fun h => ?_, fun h => ?_⟩ <;>
      simp_all [WRITING, EMPTY, READY, READING]
  | sendPublish h0 h1 =>
    refine ⟨Or.inr (Or.inr (Or.inl rfl)), fun h => ?_, fun h => ?_, fun h => ?_⟩ <;>
      simp_all [EMPTY, WRITING, READY, READING]
  | recvClaim h0 =>
    refine ⟨Or.inr (Or.inr (Or.inr rfl)), fun h => ?_, fun h => ?_, fun h => ?_⟩ <;>
      simp_all [EMPTY, READY, READING]

theorem Channel.reach_slotInv {T : Type} {c : Channel T} (h : Channel.Reach c) :
    Channel.SlotInv c := by
  induction h with
  | refl => exact Channel.slotInv_new
  | tail _ hstep ih => exact Channel.slotInv_step ih hstep

/-- C6: in every configuration reachable by the atomic steps of the source,
the slot holds a live value iff the state tag is `WRITING` with the write
already performed, or `READY`; in particular in `READING` the value has been
moved out to the caller of `receive` and in `EMPTY` nothing was ever
stored. -/
theorem C6_slot_iff_state {T : Type} (c : Channel T) (h : Channel.Reach c) :
    (c.message.isSome = true ↔
        (c.state = WRITING ∧ c.message.isSome = true) ∨ c.state = READY) ∧
      (c.state = READING → c.message = none) ∧
      (c.state = EMPTY → c.message = none) := by
  obtain ⟨htag, hE, hRY, hRG⟩ := Channel.reach_slotInv h
  refine ⟨⟨fun hs => ?_, fun hs => ?_⟩, hRG, hE⟩
  · rcases htag with h0 | h1 | h2 | h3
    · rw [hE h0] at hs; exact absurd hs (by simp)
    · exact Or.inl ⟨h1, hs⟩
    · exact Or.inr h2
    · rw [hRG h3] at hs; exact absurd hs (by simp)
  · rcases hs with ⟨_, hs⟩ | hs
    · exact hs
    · exact hRY hs

/-- Witness for C6 at the freshly constructed channel. -/
theorem C6_slot_iff_state_witness :
    ((Channel.new (T := Nat)).message.isSome = true ↔
        ((Channel.new (T := Nat)).state = WRITING ∧
          (Channel.new (T := Nat)).message.isSome = true) ∨
          (Channel.new (T := Nat)).state = READY) ∧
      ((Channel.new (T := Nat)).state = READING →
        (Channel.new (T := Nat)).message = none) ∧
      ((Channel.new (T := Nat)).state = EMPTY →
        (Channel.new (T := Nat)).message = none) :=
  C6_slot_iff_state Channel.new Relation.ReflTransGen.refl

/-- A call in a sequential usage history of a channel: `send v` or
`receive`. -/
inductive Op (T : Type) where
  | send (v : T)
  | recv
  deriving Repr

/-- Run a sequential history of calls on a channel, returning the final
channel together with the number of successful (non-panicking) sends and the
number of successful receives.  A send succeeds exactly when its
`compare_exchange(EMPTY, WRITING, ..)` succeeds, i.e. when the state is
`EMPTY`; a receive succeeds exactly when its
`compare_exchange(READY, READING, ..)` succeeds, i.e. when the state is
`READY`.  A panicking call leaves the channel unchanged. -/
def Channel.runCount {T : Type} : Channel T → List (Op T) → Channel T × Nat × Nat
  | c, [] => (c, 0, 0)
  | c, Op.send v :: rest =>
    let r := Channel.runCount (c.send v).1 rest
    (r.1, (if c.state = EMPTY then 1 else 0) + r.2.1, r.2.2)
  | c, Op.recv :: rest =>
    let r := Channel.runCount (c.receive).1 rest
    (r.1, r.2.1, (if c.state = READY then 1 else 0) + r.2.2)

/-- Coarse shape of a channel between calls: never sent to. -/
def Channel.ShapeE {T : Type} (c : Channel T) : Prop :=
  c.message = none ∧ c.state = EMPTY

/-- Coarse shape of a channel between calls: sent to, not yet received
from. -/
def Channel.ShapeR {T : Type} (c : Channel T) : Prop :=
  c.message.isSome = true ∧ c.state = READY

/-- Coarse shape of a channel between calls: sent to and received from. -/
def Channel.ShapeG {T : Type} (c : Channel T) : Prop :=
  c.message = none ∧ c.state = READING

/-- The core accounting lemma for sequential histories: from each of the
three between-calls shapes, a history produces exactly the success counts
matching the shape change, and ends in one of the three shapes. -/
theorem Channel.runCount_spec {T : Type} (h : List (Op T)) :
    ∀ c : Channel T,
      (Channel.ShapeE c →
        ((Channel.runCount c h).2 = (0, 0) ∧ Channel.ShapeE (Channel.runCount c h).1) ∨
        ((Channel.runCount c h).2 = (1, 0) ∧ Channel.ShapeR (Channel.runCount c h).1) ∨
        ((Channel.runCount c h).2 = (1, 1) ∧ Channel.ShapeG (Channel.runCount c h).1)) ∧
      (Channel.ShapeR c →
        ((Channel.runCount c h).2 = (0, 0) ∧ Channel.ShapeR (Channel.runCount c h).1) ∨
        ((Channel.runCount c h).2 = (0, 1) ∧ Channel.ShapeG (Channel.runCount c h).1)) ∧
      (Channel.ShapeG c →
        (Channel.runCount c h).2 = (0, 0) ∧ Channel.ShapeG (Channel.runCount c h).1) := by
  induction h with
  | nil =>
    intro c
    exact ⟨fun hc => Or.inl ⟨rfl, hc⟩, fun hc => Or.inl ⟨rfl, hc⟩, fun hc => ⟨rfl, hc⟩⟩
  | cons op rest ih =>
    intro c
    cases op with
    | send v =>
      refine ⟨fun hc => ?_, fun hc => ?_, fun hc => ?_⟩
      · -- from EMPTY a send succeeds and moves to READY with the value stored
        have hst : c.state = EMPTY := hc.2
        have hsend : (c.send v).1 = ⟨some v, READY⟩ := by
          simp [Channel.send, hst]
        have hR : Channel.ShapeR (c.send v).1 := by
          rw [hsend]; exact ⟨rfl, rfl⟩
        have := (ih (c.send v).1).2.1 hR
        rcases this with ⟨hcnt, hsh⟩ | ⟨hcnt, hsh⟩
        · refine Or.inr (Or.inl ⟨?_, ?_⟩)
          · simp [Channel.runCount, hst, hcnt]
          · simpa [Channel.runCount] using hsh
        · refine Or.inr (Or.inr ⟨?_, ?_⟩)
          · simp [Channel.runCount, hst, hcnt]
          · simpa [Channel.runCount] using hsh
      · -- from READY a send panics and changes nothing
        have hst : c.state = READY := hc.2
        have hsend : (c.send v).1 = c := by
          simp [Channel.send, hst, READY, EMPTY]
        have := (ih (c.send v).1).2.1 (by rw [hsend]; exact hc)
        rcases this with ⟨hcnt, hsh⟩ | ⟨hcnt, hsh⟩
        · refine Or.inl ⟨?_, ?_⟩
          · simp [Channel.runCount, hst, READY, EMPTY, hcnt]
          · simpa [Channel.runCount] using hsh
        · refine Or.inr ⟨?_, ?_⟩
          · simp [Channel.runCount, hst, READY, EMPTY, hcnt]
          · simpa [Channel.runCount] using hsh
      · -- from READING a send panics and changes nothing
        have hst : c.state = READING := hc.2
        have hsend : (c.send v).1 = c := by
          simp [Channel.send, hst, READING, EMPTY]
        have := (ih (c.send v).1).2.2 (by rw [hsend]; exact hc)
        obtain ⟨hcnt, hsh⟩ := this
        refine ⟨?_, ?_⟩
        · simp [Channel.runCount, hst, READING, EMPTY, hcnt]
        · simpa [Channel.runCount] using hsh
    | recv =>
      refine ⟨fun hc => ?_, fun hc => ?_, fun hc => ?_⟩
      · -- from EMPTY a receive panics and changes nothing
        have hst : c.state = EMPTY := hc.2
        have hrecv : (c.receive).1 = c := by
          simp [Channel.receive, hst, EMPTY, READY]
        have := (ih (c.receive).1).1 (by rw [hrecv]; exact hc)
        rcases this with ⟨hcnt, hsh⟩ | ⟨hcnt, hsh⟩ | ⟨hcnt, hsh⟩
        · refine Or.inl ⟨?_, ?_⟩
          · simp [Channel.runCount, hst, EMPTY, READY, hcnt]
          · simpa [Channel.runCount] using hsh
        · refine Or.inr (Or.inl ⟨?_, ?_⟩)
          · simp [Channel.runCount, hst, EMPTY, READY, hcnt]
          · simpa [Channel.runCount] using hsh
        · refine Or.inr (Or.inr ⟨?_, ?_⟩)
          · simp [Channel.runCount, hst, EMPTY, READY, hcnt]
          · simpa [Channel.runCount] using hsh
      · -- from READY a receive succeeds and moves to READING, emptying the slot
        have hst : c.state = READY := hc.2
        have hrecv : (c.receive).1 = ⟨none, READING⟩ := by
          simp [Channel.receive, hst]
        have hG : Channel.ShapeG (c.receive).1 := by
          rw [hrecv]; exact ⟨rfl, rfl⟩
        have := (ih (c.receive).1).2.2 hG
        obtain ⟨hcnt, hsh⟩ := this
        refine Or.inr ⟨?_, ?_⟩
        · simp [Channel.runCount, hst, hcnt]
        · simpa [Channel.runCount] using hsh
      · -- from READING a receive panics and changes nothing
        have hst : c.state = READING := hc.2
        have hrecv : (c.receive).1 = c := by
          simp [Channel.receive, hst, READING, READY]
        have := (ih (c.receive).1).2.2 (by rw [hrecv]; exact hc)
        obtain ⟨hcnt, hsh⟩ := this
        refine ⟨?_, ?_⟩
        · simp [Channel.runCount, hst, READING, READY, hcnt]
        · simpa [Channel.runCount] using hsh

theorem Channel.new_shapeE {T : Type} : Channel.ShapeE (Channel.new (T := T)) :=
  ⟨rfl, rfl⟩

/-- C1: on a fresh channel, one `send v` followed by one `receive` succeeds
and returns exactly `v`.  The move (no-copy) transfer of the payload is
reflected in the model by the slot being emptied by `receive`: afterwards the
value exists only at the caller, never in two places, and no operation of the
model duplicates it. -/
theorem C1_send_receive_roundtrip {T : Type} (v : T) :
    (Channel.new.send v).2 = false ∧
      ((Channel.new.send v).1.receive).2 = some v ∧
      ((Channel.new.send v).1.receive).1.message = none := by
  refine ⟨rfl, ?_, ?_⟩ <;> rfl

/-- C3: after a successful send, a second send panics, leaves the channel
(slot and state) exactly as the first send left it, and a subsequent receive
still returns the first value. -/
theorem C3_double_send {T : Type} (v w : T) (c : Channel T)
    (hfst : (c.send v).2 = false) :
    (c.send v).1.send w = ((c.send v).1, true) ∧
      ((c.send v).1.receive).2 = some v := by
  have hst : c.state = EMPTY := by
    by_contra hne
    simp [Channel.send, hne] at hfst
  have h1 : (c.send v).1 = ⟨some v, READY⟩ := by
    simp [Channel.send, hst]
  rw [h1]
  exact ⟨rfl, rfl⟩

/-- Witness for C3 on a fresh channel with payloads `0` then `1`. -/
theorem C3_double_send_witness :
    ((Channel.new (T := Nat)).send 0).1.send 1 =
        (((Channel.new (T := Nat)).send 0).1, true) ∧
      ((((Channel.new (T := Nat)).send 0).1.receive)).2 = some 0 :=
  C3_double_send 0 1 Channel.new rfl

/-- C4: a receive returns a value exactly when the history so far contains
exactly one successful send and no successful receive; in particular a
receive on a fresh channel panics (and changes nothing), and a second receive
after one send panics (and changes nothing). -/
theorem C4_receive_precondition {T : Type} (v : T) (h : List (Op T)) :
    (((Channel.runCount Channel.new h).1.receive).2.isSome = true ↔
        (Channel.runCount Channel.new h).2 = (1, 0)) ∧
      (Channel.new (T := T)).receive = (Channel.new, none) ∧
      ((Channel.new.send v).1.receive).1.receive =
        (((Channel.new.send v).1.receive).1, none) := by
  refine ⟨?_, rfl, rfl⟩
  rcases (Channel.runCount_spec h Channel.new).1 Channel.new_shapeE with
    ⟨hcnt, hsh⟩ | ⟨hcnt, hsh⟩ | ⟨hcnt, hsh⟩
  · rw [hcnt]
    simp only [Channel.receive, hsh.2]
    norm_num [EMPTY, READY, Prod.ext_iff]
  · rw [hcnt]
    simp [Channel.receive, hsh.2, hsh.1]
  · rw [hcnt]
    simp only [Channel.receive, hsh.2]
    norm_num [READING, READY, Prod.ext_iff]

/-- C7: `is_ready` is false on a fresh channel, true after the send, false
again after the receive, and in general true exactly when the history so far
contains exactly one successful send and no successful receive.  It is a pure
function of the channel (the source performs a single load and no store), so
it never panics and never mutates the state. -/
theorem C7_is_ready {T : Type} (v : T) (h : List (Op T)) :
    (Channel.new (T := T)).is_ready = false ∧
      ((Channel.new.send v).1).is_ready = true ∧
      (((Channel.new.send v).1.receive).1).is_ready = false ∧
      ((Channel.runCount Channel.new h).1.is_ready = true ↔
        (Channel.runCount Channel.new h).2 = (1, 0)) := by
  refine ⟨rfl, rfl, rfl, ?_⟩
  rcases (Channel.runCount_spec h Channel.new).1 Channel.new_shapeE with
    ⟨hcnt, hsh⟩ | ⟨hcnt, hsh⟩ | ⟨hcnt, hsh⟩
  · rw [hcnt]
    simp only [Channel.is_ready, hsh.2]
    norm_num [EMPTY, READY, Prod.ext_iff]
  · rw [hcnt]
    simp [Channel.is_ready, hsh.2]
  · rw [hcnt]
    simp only [Channel.is_ready, hsh.2]
    norm_num [READING, READY, Prod.ext_iff]

/-- C5: destroying a channel whose final state after a history is `READY`
destroys the stored value exactly once; destroying one whose final state is
`EMPTY` or `READING` destroys nothing. -/
theorem C5_drop_destruction {T : Type} (h : List (Op T)) :
    ((Channel.runCount Channel.new h).1.state = READY →
        ∃ v, (Channel.runCount Channel.new h).1.message = some v ∧
          (Channel.runCount Channel.new h).1.dropDestroyed = [v]) ∧
      ((Channel.runCount Channel.new h).1.state = EMPTY ∨
          (Channel.runCount Channel.new h).1.state = READING →
        (Channel.runCount Channel.new h).1.dropDestroyed = []) := by
  rcases (Channel.runCount_spec h Channel.new).1 Channel.new_shapeE with
    ⟨hcnt, hsh⟩ | ⟨hcnt, hsh⟩ | ⟨hcnt, hsh⟩
  · refine ⟨fun hr => ?_, fun _ => ?_⟩
    · rw [hsh.2] at hr
      exact absurd hr (by simp [EMPTY, READY])
    · simp [Channel.dropDestroyed, hsh.2, EMPTY, READY]
  · obtain ⟨w, hw⟩ := Option.isSome_iff_exists.mp hsh.1
    refine ⟨fun _ => ⟨w, hw, ?_⟩, fun hr => ?_⟩
    · simp [Channel.dropDestroyed, hsh.2, hw]
    · rcases hr with hr | hr <;> rw [hsh.2] at hr <;>
        exact absurd hr (by simp [EMPTY, READY, READING])
  · refine ⟨fun hr => ?_, fun _ => ?_⟩
    · rw [hsh.2] at hr
      exact absurd hr (by simp [READING, READY])
    · simp [Channel.dropDestroyed, hsh.2, READING, READY]

/-- Witness for C5: after the history `[send 3]` destruction destroys `3`
exactly once; after the empty history it destroys nothing. -/
theorem C5_drop_destruction_witness :
    (∃ v, (Channel.runCount (Channel.new (T := Nat)) [Op.send 3]).1.message = some v ∧
        (Channel.runCount (Channel.new (T := Nat)) [Op.send 3]).1.dropDestroyed = [v]) ∧
      (Channel.runCount (Channel.new (T := Nat)) []).1.dropDestroyed = [] :=
  ⟨(C5_drop_destruction [Op.send 3]).1 rfl,
    (C5_drop_destruction ([] : List (Op Nat))).2 (Or.inl rfl)⟩

/-- `BasicChannel<T>` of `basic_channel.rs` / `lib.rs`: the
`Mutex<VecDeque<T>>` queue is modelled as a list (front = head).  The mutex
and condition variable only serialize concurrent access and wake blocked
receivers; the sequential functional behavior is the queue itself. -/
structure BasicChannel (T : Type) where
  queue : List T
  deriving Repr, DecidableEq

/-- `BasicChannel::new`: empty queue. -/
def BasicChannel.new {T : Type} : BasicChannel T :=
  ⟨[]⟩

/-- `BasicChannel::send`: `push_back` onto the queue (plus `notify_one`,
which has no effect on the queue).  Total: it succeeds for every queue
length. -/
def BasicChannel.send {T : Type} (c : BasicChannel T) (m : T) : BasicChannel T :=
  ⟨c.queue ++ [m]⟩

/-- `BasicChannel::receive`: `pop_front` if the queue is nonempty; on an
empty queue the source blocks on the condition variable until a message
arrives, modelled as `none` ("would block" — receive never fails). -/
def BasicChannel.receive {T : Type} (c : BasicChannel T) :
    Option (T × BasicChannel T) :=
  match c.queue with
  | [] => none
  | x :: xs => some (x, ⟨xs⟩)

/-- Send each value of `vs` in order. -/
def BasicChannel.sendAll {T : Type} (c : BasicChannel T) (vs : List T) :
    BasicChannel T :=
  vs.foldl BasicChannel.send c

/-- Perform `n` receives in a row, collecting the received values in order;
`none` if any receive would block. -/
def BasicChannel.receiveN {T : Type} : Nat → BasicChannel T →
    Option (List T × BasicChannel T)
  | 0, c => some ([], c)
  | n + 1, c =>
    match c.receive with
    | none => none
    | some (x, c') =>
      match BasicChannel.receiveN n c' with
      | none => none
      | some (xs, c'') => some (x :: xs, c'')

theorem BasicChannel.sendAll_queue {T : Type} (vs : List T) :
    ∀ c : BasicChannel T, (c.sendAll vs).queue = c.queue ++ vs := by
  induction vs with
  | nil => intro c; simp [BasicChannel.sendAll]
  | cons v vs ih =>
    intro c
    have := ih (c.send v)
    simp [BasicChannel.sendAll, BasicChannel.send, List.foldl_cons] at this ⊢
    simp [this]

theorem BasicChannel.receiveN_all {T : Type} (vs : List T) :
    BasicChannel.receiveN vs.length ⟨vs⟩ = some (vs, ⟨[]⟩) := by
  induction vs with
  | nil => rfl
  | cons v vs ih =>
    simp [BasicChannel.receiveN, BasicChannel.receive, ih]

/-- C9: `BasicChannel` is an unbounded FIFO queue: a send appends to the back
of the queue whatever its length (it never fails), and after sending
`v₁ … vₙ` on a fresh channel with no intervening receives, `n` receives
return exactly `v₁ … vₙ` in that order, leaving the queue empty. -/
theorem C9_basic_fifo {T : Type} (c : BasicChannel T) (v : T) (vs : List T) :
    (c.send v).queue = c.queue ++ [v] ∧
      BasicChannel.receiveN vs.length (BasicChannel.new.sendAll vs) =
        some (vs, BasicChannel.new) := by
  refine ⟨rfl, ?_⟩
  have h : (BasicChannel.new (T := T)).sendAll vs = ⟨vs⟩ := by
    have h2 := BasicChannel.sendAll_queue vs (BasicChannel.new (T := T))
    cases hq : (BasicChannel.new (T := T)).sendAll vs with
    | mk q =>
      rw [hq] at h2
      simp [BasicChannel.new] at h2
      simp [h2]
  rw [h]
  exact BasicChannel.receiveN_all vs

/-- The earlier two-flag one-shot channel retained in `lib.rs`:
`message: UnsafeCell<MaybeUninit<T>>` as `Option T`, and the two
`AtomicBool`s `in_use` and `ready` as `Bool`s. -/
structure ChannelTF (T : Type) where
  message : Option T
  in_use : Bool
  ready : Bool
  deriving Repr, DecidableEq

/-- `Channel::new` in `lib.rs`: uninitialized slot, both flags `false`. -/
def ChannelTF.new {T : Type} : ChannelTF T :=
  ⟨none, false, false⟩

/-- `Channel::send` in `lib.rs`: `in_use.swap(true, Relaxed)` — the swap
always stores `true`; if the old value was `true` the call panics without
touching the slot, otherwise the value is written and `ready` is stored
`true` (Release).  Second component is the panic flag. -/
def ChannelTF.send {T : Type} (c : ChannelTF T) (m : T) : ChannelTF T × Bool :=
  if c.in_use then (⟨c.message, true, c.ready⟩, true)
  else (⟨some m, true, true⟩, false)

/-- `Channel::is_ready` in `lib.rs`: a relaxed load of `ready`. -/
def ChannelTF.is_ready {T : Type} (c : ChannelTF T) : Bool :=
  c.ready

/-- `Channel::receive` in `lib.rs`: `ready.swap(false, Acquire)` — the swap
always stores `false`; if the old value was `false` the call panics (the
channel is unchanged, since `ready` was already `false`), otherwise
`assume_init_read` moves the value out of the slot. -/
def ChannelTF.receive {T : Type} (c : ChannelTF T) : ChannelTF T × Option T :=
  if c.ready then (⟨none, c.in_use, false⟩, c.message)
  else (⟨c.message, c.in_use, false⟩, none)

/-- `impl Drop for Channel` in `lib.rs`: `assume_init_drop` exactly when
`ready` is `true`. -/
def ChannelTF.dropDestroyed {T : Type} (c : ChannelTF T) : List T :=
  if c.ready then c.message.toList else []

/-- A call in a sequential usage trace exercising the full public API:
`send v`, `receive`, or the `is_ready` probe. -/
inductive TraceOp (T : Type) where
  | send (v : T)
  | recv
  | probe
  deriving Repr

/-- What a caller observes from one call: whether a send panicked, the value
a receive returned (`none` = the receive panicked), or the boolean the probe
returned. -/
inductive Obs (T : Type) where
  | sent (panicked : Bool)
  | received (value : Option T)
  | readiness (b : Bool)
  deriving Repr

/-- Run a trace on the four-state channel, collecting observations and the
final channel (whose destruction behavior `Channel.dropDestroyed` gives). -/
def Channel.runTrace {T : Type} : Channel T → List (TraceOp T) →
    List (Obs T) × Channel T
  | c, [] => ([], c)
  | c, TraceOp.send v :: rest =>
    let s := c.send v
    let r := Channel.runTrace s.1 rest
    (Obs.sent s.2 :: r.1, r.2)
  | c, TraceOp.recv :: rest =>
    let s := c.receive
    let r := Channel.runTrace s.1 rest
    (Obs.received s.2 :: r.1, r.2)
  | c, TraceOp.probe :: rest =>
    let r := Channel.runTrace c rest
    (Obs.readiness c.is_ready :: r.1, r.2)

/-- Run a trace on the two-flag channel. -/
def ChannelTF.runTrace {T : Type} : ChannelTF T → List (TraceOp T) →
    List (Obs T) × ChannelTF T
  | c, [] => ([], c)
  | c, TraceOp.send v :: rest =>
    let s := c.send v
    let r := ChannelTF.runTrace s.1 rest
    (Obs.sent s.2 :: r.1, r.2)
  | c, TraceOp.recv :: rest =>
    let s := c.receive
    let r := ChannelTF.runTrace s.1 rest
    (Obs.received s.2 :: r.1, r.2)
  | c, TraceOp.probe :: rest =>
    let r := ChannelTF.runTrace c rest
    (Obs.readiness c.is_ready :: r.1, r.2)

/-- Simulation relation between the four-state channel and the two-flag
channel: same slot contents, `in_use` records "the state has left `EMPTY`",
`ready` records "the state is `READY`", and the four-state side is in one of
its three between-calls tags. -/
def SimTF {T : Type} (c : Channel T) (t : ChannelTF T) : Prop :=
  t.message = c.message ∧
    t.in_use = decide (¬c.state = EMPTY) ∧
    t.ready = decide (c.state = READY) ∧
    (c.state = EMPTY ∨ c.state = READY ∨ c.state = READING)

theorem simTF_new {T : Type} : SimTF (Channel.new (T := T)) ChannelTF.new :=
  ⟨rfl, rfl, rfl, Or.inl rfl⟩

theorem simTF_send {T : Type} {c : Channel T} {t : ChannelTF T}
    (hsim : SimTF c t) (m : T) :
    (c.send m).2 = (t.send m).2 ∧ SimTF (c.send m).1 (t.send m).1 := by
  obtain ⟨hm, hu, hr, hst⟩ := hsim
  rcases hst with h0 | h0 | h0
  · constructor
    · simp [Channel.send, ChannelTF.send, h0, hu]
    · refine ⟨?_, ?_, ?_, ?_⟩ <;>
        simp [Channel.send, ChannelTF.send, h0, hu, READY, EMPTY]
  · constructor
    · simp [Channel.send, ChannelTF.send, h0, hu, READY, EMPTY]
    · refine ⟨?_, ?_, ?_, ?_⟩ <;>
        simp [Channel.send, ChannelTF.send, h0, hu, hr, hm, READY, EMPTY]
  · constructor
    · simp [Channel.send, ChannelTF.send, h0, hu, READING, EMPTY]
    · refine ⟨?_, ?_, ?_, ?_⟩ <;>
        simp [Channel.send, ChannelTF.send, h0, hu, hr, hm, READING, READY, EMPTY]

theorem simTF_receive {T : Type} {c : Channel T} {t : ChannelTF T}
    (hsim : SimTF c t) :
    (c.receive).2 = (t.receive).2 ∧ SimTF (c.receive).1 (t.receive).1 := by
  obtain ⟨hm, hu, hr, hst⟩ := hsim
  rcases hst with h0 | h0 | h0
  · constructor
    · simp [Channel.receive, ChannelTF.receive, h0, hr, EMPTY, READY]
    · refine ⟨?_, ?_, ?_, ?_⟩ <;>
        simp [Channel.receive, ChannelTF.receive, h0, hr, hu, hm, EMPTY, READY]
  · constructor
    · simp [Channel.receive, ChannelTF.receive, h0, hr, hm]
    · refine ⟨?_, ?_, ?_, ?_⟩ <;>
        simp [Channel.receive, ChannelTF.receive, h0, hr, hu, hm, EMPTY, READY, READING]
  · constructor
    · simp [Channel.receive, ChannelTF.receive, h0, hr, READING, READY]
    · refine ⟨?_, ?_, ?_, ?_⟩ <;>
        simp [Channel.receive, ChannelTF.receive, h0, hr, hu, hm, READING, READY, EMPTY]

theorem simTF_probe {T : Type} {c : Channel T} {t : ChannelTF T}
    (hsim : SimTF c t) : c.is_ready = t.is_ready := by
  obtain ⟨hm, hu, hr, hst⟩ := hsim
  simp [Channel.is_ready, ChannelTF.is_ready, hr]

theorem simTF_runTrace {T : Type} (ops : List (TraceOp T)) :
    ∀ (c : Channel T) (t : ChannelTF T), SimTF c t →
      (Channel.runTrace c ops).1 = (ChannelTF.runTrace t ops).1 ∧
        SimTF (Channel.runTrace c ops).2 (ChannelTF.runTrace t ops).2 := by
  induction ops with
  | nil => exact fun c t hsim => ⟨rfl, hsim⟩
  | cons op rest ih =>
    intro c t hsim
    cases op with
    | send v =>
      obtain ⟨hflag, hsim'⟩ := simTF_send hsim v
      obtain ⟨hobs, hend⟩ := ih _ _ hsim'
      exact ⟨by simp [Channel.runTrace, ChannelTF.runTrace, hflag, hobs], by
        simpa [Channel.runTrace, ChannelTF.runTrace] using hend⟩
    | recv =>
      obtain ⟨hval, hsim'⟩ := simTF_receive hsim
      obtain ⟨hobs, hend⟩ := ih _ _ hsim'
      exact ⟨by simp [Channel.runTrace, ChannelTF.runTrace, hval, hobs], by
        simpa [Channel.runTrace, ChannelTF.runTrace] using hend⟩
    | probe =>
      obtain ⟨hobs, hend⟩ := ih _ _ hsim
      exact ⟨by simp [Channel.runTrace, ChannelTF.runTrace, simTF_probe hsim, hobs], by
        simpa [Channel.runTrace, ChannelTF.runTrace] using hend⟩

/-- C10: the retained two-flag channel of `lib.rs` and the four-state channel
of `os_channel.rs` are observationally equivalent on every sequential trace
over `new`/`send`/`is_ready`/`receive`/`drop`: the same calls return the same
values and panic at the same calls, and destruction of the final channel
destroys the same payload values.  (The two sources differ only in the text
of the double-send panic message, which is not an observation here.) -/
theorem C10_two_flag_equivalence {T : Type} (ops : List (TraceOp T)) :
    (Channel.runTrace Channel.new ops).1 = (ChannelTF.runTrace ChannelTF.new ops).1 ∧
      ((Channel.runTrace Channel.new ops).2).dropDestroyed =
        ((ChannelTF.runTrace ChannelTF.new ops).2).dropDestroyed := by
  obtain ⟨hobs, hend⟩ := simTF_runTrace ops Channel.new ChannelTF.new simTF_new
  refine ⟨hobs, ?_⟩
  obtain ⟨hm, hu, hr, hst⟩ := hend
  simp [Channel.dropDestroyed, ChannelTF.dropDestroyed, hm, hr]

/-- Program counter of one thread executing `Channel::send` on the
four-state channel, one position per atomic action of the call:

* `start` — about to run `compare_exchange(EMPTY, WRITING, ..)`;
* `write` — won the claim, about to write the slot;
* `publish` — wrote the slot, about to `store(READY, Release)`;
* `done` — the call returned normally;
* `panicked` — the `compare_exchange` failed and the call panicked. -/
inductive SenderPc where
  | start
  | write
  | publish
  | done
  | panicked
  deriving Repr, DecidableEq

/-- Two threads concurrently calling `send` on one shared channel. -/
structure TwoSenders (T : Type) where
  chan : Channel T
  pc1 : SenderPc
  pc2 : SenderPc

/-- Both threads at the start of `send`, on a fresh channel. -/
def TwoSenders.init {T : Type} : TwoSenders T :=
  ⟨Channel.new, SenderPc.start, SenderPc.start⟩

/-- Interleaving semantics of two concurrent `send(v1)` / `send(v2)` calls:
at each step one of the threads performs its next atomic action.  The
`compare_exchange` is a single atomic action (this is what the source's CAS
guarantees); the slot write and the `READY` store are separate actions, so
the loser's CAS may interleave anywhere around them. -/
inductive TwoStep {T : Type} (v1 v2 : T) : TwoSenders T → TwoSenders T → Prop
  | claim1Ok (s : TwoSenders T) : s.pc1 = SenderPc.start → s.chan.state = EMPTY →
      TwoStep v1 v2 s ⟨⟨s.chan.message, WRITING⟩, SenderPc.write, s.pc2⟩
  | claim1Fail (s : TwoSenders T) : s.pc1 = SenderPc.start → ¬s.chan.state = EMPTY →
      TwoStep v1 v2 s ⟨s.chan, SenderPc.panicked, s.pc2⟩
  | write1 (s : TwoSenders T) : s.pc1 = SenderPc.write →
      TwoStep v1 v2 s ⟨⟨some v1, s.chan.state⟩, SenderPc.publish, s.pc2⟩
  | publish1 (s : TwoSenders T) : s.pc1 = SenderPc.publish →
      TwoStep v1 v2 s ⟨⟨s.chan.message, READY⟩, SenderPc.done, s.pc2⟩
  | claim2Ok (s : TwoSenders T) : s.pc2 = SenderPc.start → s.chan.state = EMPTY →
      TwoStep v1 v2 s ⟨⟨s.chan.message, WRITING⟩, s.pc1, SenderPc.write⟩
  | claim2Fail (s : TwoSenders T) : s.pc2 = SenderPc.start → ¬s.chan.state = EMPTY →
      TwoStep v1 v2 s ⟨s.chan, s.pc1, SenderPc.panicked⟩
  | write2 (s : TwoSenders T) : s.pc2 = SenderPc.write →
      TwoStep v1 v2 s ⟨⟨some v2, s.chan.state⟩, s.pc1, SenderPc.publish⟩
  | publish2 (s : TwoSenders T) : s.pc2 = SenderPc.publish →
      TwoStep v1 v2 s ⟨⟨s.chan.message, READY⟩, s.pc1, SenderPc.done⟩

/-- The exhaustive list of configurations reachable while two sends race:
whichever thread wins the claim proceeds through `write` and `publish` while
the other is either still at `start` or already `panicked`. -/
def TwoSendersInv {T : Type} (v1 v2 : T) (s : TwoSenders T) : Prop :=
  s = ⟨⟨none, EMPTY⟩, SenderPc.start, SenderPc.start⟩ ∨
  s = ⟨⟨none, WRITING⟩, SenderPc.write, SenderPc.start⟩ ∨
  s = ⟨⟨none, WRITING⟩, SenderPc.write, SenderPc.panicked⟩ ∨
  s = ⟨⟨some v1, WRITING⟩, SenderPc.publish, SenderPc.start⟩ ∨
  s = ⟨⟨some v1, WRITING⟩, SenderPc.publish, SenderPc.panicked⟩ ∨
  s = ⟨⟨some v1, READY⟩, SenderPc.done, SenderPc.start⟩ ∨
  s = ⟨⟨some v1, READY⟩, SenderPc.done, SenderPc.panicked⟩ ∨
  s = ⟨⟨none, WRITING⟩, SenderPc.start, SenderPc.write⟩ ∨
  s = ⟨⟨none, WRITING⟩, SenderPc.panicked, SenderPc.write⟩ ∨
  s = ⟨⟨some v2, WRITING⟩, SenderPc.start, SenderPc.publish⟩ ∨
  s = ⟨⟨some v2, WRITING⟩, SenderPc.panicked, SenderPc.publish⟩ ∨
  s = ⟨⟨some v2, READY⟩, SenderPc.start, SenderPc.done⟩ ∨
  s = ⟨⟨some v2, READY⟩, SenderPc.panicked, SenderPc.done⟩

theorem twoSendersInv_init {T : Type} (v1 v2 : T) :
    TwoSendersInv v1 v2 (TwoSenders.init (T := T)) :=
  Or.inl rfl

theorem twoSendersInv_step {T : Type} (v1 v2 : T) {s s' : TwoSenders T}
    (hinv : TwoSendersInv v1 v2 s) (hstep : TwoStep v1 v2 s s') :
    TwoSendersInv v1 v2 s' := by
  cases hstep with
  | claim1Ok h1 h2 =>
    rcases hinv with rfl | rfl | rfl | rfl | rfl | rfl | rfl | rfl | rfl | rfl | rfl | rfl | rfl <;>
      simp_all [TwoSendersInv, EMPTY, WRITING, READY]
  | claim1Fail h1 h2 =>
    rcases hinv with rfl | rfl | rfl | rfl | rfl | rfl | rfl | rfl | rfl | rfl | rfl | rfl | rfl <;>
      simp_all [TwoSendersInv, EMPTY, WRITING, READY]
  | write1 h1 =>
    rcases hinv with rfl | rfl | rfl | rfl | rfl | rfl | rfl | rfl | rfl | rfl | rfl | rfl | rfl <;>
      simp_all [TwoSendersInv, EMPTY, WRITING, READY]
  | publish1 h1 =>
    rcases hinv with rfl | rfl | rfl | rfl | rfl | rfl | rfl | rfl | rfl | rfl | rfl | rfl | rfl <;>
      simp_all [TwoSendersInv, EMPTY, WRITING, READY]
  | claim2Ok h1 h2 =>
    rcases hinv with rfl | rfl | rfl | rfl | rfl | rfl | rfl | rfl | rfl | rfl | rfl | rfl | rfl <;>
      simp_all [TwoSendersInv, EMPTY, WRITING, READY]
  | claim2Fail h1 h2 =>
    rcases hinv with rfl | rfl | rfl | rfl | rfl | rfl | rfl | rfl | rfl | rfl | rfl | rfl | rfl <;>
      simp_all [TwoSendersInv, EMPTY, WRITING, READY]
  | write2 h1 =>
    rcases hinv with rfl | rfl | rfl | rfl | rfl | rfl | rfl | rfl | rfl | rfl | rfl | rfl | rfl <;>
      simp_all [TwoSendersInv, EMPTY, WRITING, READY]
  | publish2 h1 =>
    rcases hinv with rfl | rfl | rfl | rfl | rfl | rfl | rfl | rfl | rfl | rfl | rfl | rfl | rfl <;>
      simp_all [TwoSendersInv, EMPTY, WRITING, READY]

theorem twoSendersInv_reach {T : Type} (v1 v2 : T) {s : TwoSenders T}
    (h : Relation.ReflTransGen (TwoStep v1 v2) TwoSenders.init s) :
    TwoSendersInv v1 v2 s := by
  induction h with
  | refl => exact twoSendersInv_init v1 v2
  | tail _ hstep ih => exact twoSendersInv_step v1 v2 ih hstep

/-- C8: when two threads concurrently call `send(v1)` and `send(v2)` on a
fresh channel, in every completed interleaving (both calls finished) exactly
one call succeeded, the other panicked, and a subsequent receive succeeds
and returns the winner's value. -/
theorem C8_concurrent_sends {T : Type} (v1 v2 : T) (s : TwoSenders T)
    (hreach : Relation.ReflTransGen (TwoStep v1 v2) TwoSenders.init s)
    (hfinal : (s.pc1 = SenderPc.done ∨ s.pc1 = SenderPc.panicked) ∧
      (s.pc2 = SenderPc.done ∨ s.pc2 = SenderPc.panicked)) :
    (s.pc1 = SenderPc.done ∧ s.pc2 = SenderPc.panicked ∧
        s.chan.receive = (⟨none, READING⟩, some v1)) ∨
      (s.pc1 = SenderPc.panicked ∧ s.pc2 = SenderPc.done ∧
        s.chan.receive = (⟨none, READING⟩, some v2)) := by
  rcases twoSendersInv_reach v1 v2 hreach with
    rfl | rfl | rfl | rfl | rfl | rfl | rfl | rfl | rfl | rfl | rfl | rfl | rfl <;>
    simp_all [Channel.receive, READY, READING]

/-- Witness for C8: the interleaving in which thread 1 claims, writes and
publishes, and only then thread 2 attempts its claim and panics. -/
theorem C8_concurrent_sends_witness :
    ((⟨⟨some 1, READY⟩, SenderPc.done, SenderPc.panicked⟩ : TwoSenders Nat).pc1 = SenderPc.done ∧
      (⟨⟨some 1, READY⟩, SenderPc.done, SenderPc.panicked⟩ : TwoSenders Nat).pc2 = SenderPc.panicked ∧
      (⟨⟨some 1, READY⟩, SenderPc.done, SenderPc.panicked⟩ : TwoSenders Nat).chan.receive = (⟨none, READING⟩, some 1)) ∨
    ((⟨⟨some 1, READY⟩, SenderPc.done, SenderPc.panicked⟩ : TwoSenders Nat).pc1 = SenderPc.panicked ∧
      (⟨⟨some 1, READY⟩, SenderPc.done, SenderPc.panicked⟩ : TwoSenders Nat).pc2 = SenderPc.done ∧
      (⟨⟨some 1, READY⟩, SenderPc.done, SenderPc.panicked⟩ : TwoSenders Nat).chan.receive = (⟨none, READING⟩, some 2)) := by
  have h1 : TwoStep 1 2 (TwoSenders.init (T := Nat))
      ⟨⟨none, WRITING⟩, SenderPc.write, SenderPc.start⟩ :=
    TwoStep.claim1Ok TwoSenders.init rfl rfl
  have h2 : TwoStep 1 2 (⟨⟨none, WRITING⟩, SenderPc.write, SenderPc.start⟩ : TwoSenders Nat)
      ⟨⟨some 1, WRITING⟩, SenderPc.publish, SenderPc.start⟩ :=
    TwoStep.write1 _ rfl
  have h3 : TwoStep 1 2 (⟨⟨some 1, WRITING⟩, SenderPc.publish, SenderPc.start⟩ : TwoSenders Nat)
      ⟨⟨some 1, READY⟩, SenderPc.done, SenderPc.start⟩ :=
    TwoStep.publish1 _ rfl
  have h4 : TwoStep 1 2 (⟨⟨some 1, READY⟩, SenderPc.done, SenderPc.start⟩ : TwoSenders Nat)
      ⟨⟨some 1, READY⟩, SenderPc.done, SenderPc.panicked⟩ :=
    TwoStep.claim2Fail _ rfl (by decide)
  exact C8_concurrent_sends 1 2 _
    (Relation.ReflTransGen.tail
      (Relation.ReflTransGen.tail
        (Relation.ReflTransGen.tail
          (Relation.ReflTransGen.tail Relation.ReflTransGen.refl h1) h2) h3) h4)
    ⟨Or.inl rfl, Or.inr rfl⟩
